import Mathlib

/-
Verification of the record-keeping HTTP service in `main.py`.

The embedding models the decoded JSON request body, the field validator
`validate_data` (including the Python semantics of `f in data` and `data[f]`
on non-mapping values, which raise `TypeError`), the two request handlers
`create_test` (POST /tests) and `get_tests` (GET /tests), the sqlite table as
a list of rows with a primary-key uniqueness check on `test_id`, and the
startup configuration lookup for `DATABASE_URL`. Each handler also emits a
trace of storage events (connect, begin, insert, commit, rollback, close,
query) so that resource-release and no-storage-access properties can be
stated.
-/

namespace NeodocsBackend

/-- A JSON value as decoded by Python's `json` module: `None`, `bool`, a
number, `str`, `list`, or `dict` (string keys). -/
inductive Json where
  | null : Json
  | bool (b : Bool) : Json
  | num (n : Int) : Json
  | str (s : String) : Json
  | arr (elems : List Json) : Json
  | obj (entries : List (String × Json)) : Json

/-- Python exceptions that the modelled code can raise. -/
inductive PyErr where
  | typeError : PyErr
  | keyError : PyErr
  deriving DecidableEq, Repr

/-- Code points of every character for which Python `str.isspace()` is true,
the set `str.strip()` removes: the CPython whitespace table (bidirectional
classes WS, B, S and category Zs): TAB..CR, the FS/GS/RS/US separators,
space, NEL, NBSP, Ogham space mark, the U+2000-200A spaces, line and
paragraph separator, narrow no-break space, medium mathematical space and
ideographic space. -/
def pyWhitespaceCodes : List Nat :=
  [0x09, 0x0a, 0x0b, 0x0c, 0x0d, 0x1c, 0x1d, 0x1e, 0x1f, 0x20, 0x85, 0xa0,
   0x1680, 0x2000, 0x2001, 0x2002, 0x2003, 0x2004, 0x2005, 0x2006, 0x2007,
   0x2008, 0x2009, 0x200a, 0x2028, 0x2029, 0x202f, 0x205f, 0x3000]

/-- Characters stripped by Python's `str.strip()` with no arguments. -/
def pyIsSpace (c : Char) : Bool :=
  pyWhitespaceCodes.contains c.toNat

/-- Python `s.strip()`: remove leading and trailing whitespace. -/
def pyStrip (s : String) : String :=
  String.mk (((s.data.dropWhile pyIsSpace).reverse.dropWhile pyIsSpace).reverse)

/-- Substring containment, the semantics of Python `needle in hay` on `str`. -/
def strContainsSub (hay needle : String) : Bool :=
  (List.range (hay.data.length + 1)).any
    (fun i => needle.data.isPrefixOf (hay.data.drop i))

/-- Python `f in data` for a string key `f`: key membership for `dict`,
substring for `str`, element equality for `list`, and `TypeError` on
non-container values (`None`, `bool`, numbers). -/
def pyContains (data : Json) (f : String) : Except PyErr Bool :=
  match data with
  | .obj entries => .ok (entries.lookup f).isSome
  | .str s => .ok (strContainsSub s f)
  | .arr elems =>
      .ok (elems.any (fun x => match x with | .str t => t = f | _ => false))
  | _ => .error .typeError

/-- Python `data[f]` for a string key `f`: `dict` lookup (`KeyError` when the
key is absent), `TypeError` on every other value (string and list indices
must be integers). -/
def pyIndex (data : Json) (f : String) : Except PyErr Json :=
  match data with
  | .obj entries =>
      match entries.lookup f with
      | some v => .ok v
      | none => .error .keyError
  | _ => .error .typeError

/-- One iteration of the loop body in `validate_data` (main.py line 39):
the condition `f not in data or not isinstance(data[f], str) or not
data[f].strip()`, with Python short-circuiting. `.ok true` means the field
fails the check. -/
def checkField (data : Json) (f : String) : Except PyErr Bool :=
  match pyContains data f with
  | .error e => .error e
  | .ok c =>
      if c then
        match pyIndex data f with
        | .error e => .error e
        | .ok (.str s) => .ok (pyStrip s == "")
        | .ok _ => .ok true
      else
        .ok true

/-- The list `fields` in `validate_data` (main.py line 37), in source order. -/
def requiredFields : List String :=
  ["test_id", "patient_id", "clinic_id", "test_type", "result"]

/-- The loop of `validate_data`: return the error message for the first
failing field, `none` when all pass, or propagate a raised exception. -/
def validateFields (data : Json) : List String → Except PyErr (Option String)
  | [] => .ok none
  | f :: rest =>
      match checkField data f with
      | .error e => .error e
      | .ok true => .ok (some ("Invalid or missing field: " ++ f))
      | .ok false => validateFields data rest

/-- main.py `validate_data` (lines 36-41). -/
def validate_data (data : Json) : Except PyErr (Option String) :=
  validateFields data requiredFields

/-- One row of the `tests` table (main.py schema, lines 49-56). -/
structure TestRec where
  test_id : String
  patient_id : String
  clinic_id : String
  test_type : String
  result : String
  created_at : String
  deriving DecidableEq, Repr

/-- Storage events a handler can perform, in order of emission. -/
inductive Ev where
  | validate : Ev
  | connect : Ev
  | beginTx : Ev
  | insertRow : Ev
  | commitTx : Ev
  | rollbackTx : Ev
  | queryRows : Ev
  | closeConn : Ev
  deriving DecidableEq, Repr

/-- What a handler hands back to the HTTP runtime: an explicit `Response`
with a status and body, a list of row objects (FastAPI serializes it as a
JSON array with status 200), or an exception that escapes the handler
uncaught. -/
inductive HttpOut where
  | resp (status : Nat) (body : String) : HttpOut
  | rows (rs : List TestRec) : HttpOut
  | uncaught (e : PyErr) : HttpOut
  deriving DecidableEq, Repr

/-- The HTTP status the handler itself produces; `none` when an exception
escaped the handler and no response was returned by it. -/
def HttpOut.status : HttpOut → Option Nat
  | .resp s _ => some s
  | .rows _ => some 200
  | .uncaught _ => none

/-- Result of one `create_test` call: the HTTP outcome, the table contents
after the call, and the trace of validation/storage events. -/
structure CreateResult where
  http : HttpOut
  db : List TestRec
  events : List Ev
  deriving DecidableEq, Repr

/-- Result of one `get_tests` call. -/
structure GetResult where
  http : HttpOut
  events : List Ev
  deriving DecidableEq, Repr

/-- Response body at main.py line 77. -/
def invalidJsonBody : String := "\x7b\"error\":\"Invalid Json\"\x7d"

/-- Response body at main.py line 94, the f-string around the message. -/
def errBody (msg : String) : String := "\x7b\"error\":\"" ++ msg ++ "\"\x7d"

/-- Response body at main.py line 147. -/
def conflictBody : String := "\x7b\"error\":\"Conflict: test_id exists\"\x7d"

/-- Body of the dict returned at main.py line 131, as FastAPI serializes it. -/
def successBody : String := "\x7b\"status\":\"success\"\x7d"

/-- Response body at main.py line 166, the create path's internal error. -/
def internalErrorBody : String := "\x7b\"error\":\"Internal Error\"\x7d"

/-- Response body at main.py line 181. -/
def clinicRequiredBody : String := "\x7b\"error\":\"clinic_id is required\"\x7d"

/-- Response body at main.py line 220, the list path's internal error. -/
def fetchFailedBody : String := "\x7b\"error\":\"Internal server error\"\x7d"

/-- The row built from `body["test_id"] ... body["result"]` and the server
clock (main.py lines 110-117); `none` when some value is not a string, which
cannot happen after validation succeeds. -/
def insertedRow (body : Json) (now : String) : Option TestRec :=
  match pyIndex body "test_id", pyIndex body "patient_id",
        pyIndex body "clinic_id", pyIndex body "test_type",
        pyIndex body "result" with
  | .ok (.str t), .ok (.str p), .ok (.str c), .ok (.str ty), .ok (.str r) =>
      some ⟨t, p, c, ty, r, now⟩
  | _, _, _, _, _ => none

/-- The sqlite PRIMARY KEY check on `test_id`: the INSERT raises
`IntegrityError` exactly when a row with the same `test_id` already exists. -/
def dupKeyErr (db : List TestRec) (t : String) : Bool :=
  db.any (fun r => r.test_id == t)

/-- main.py `create_test` (lines 68-172). `rawBody = none` models a request
body that fails JSON deserialization; `now` is the server clock reading
`datetime.now().isoformat()`. `storageFail = true` models the storage layer
raising a non-IntegrityError exception inside the transaction (after BEGIN,
at the INSERT or COMMIT step): the `except Exception` branch at lines
152-169 then rolls back, answers 500 with `internalErrorBody`, and leaves
the table unchanged; the connection close in `finally` (line 172) runs on
every path. When the storage layer works (`storageFail = false`), the INSERT
raises IntegrityError exactly on a duplicate `test_id`. The
`insertedRow = none` branch is unreachable after validation succeeds. -/
def create_test (db : List TestRec) (rawBody : Option Json) (now : String)
    (storageFail : Bool) : CreateResult :=
  match rawBody with
  | none => ⟨.resp 400 invalidJsonBody, db, []⟩
  | some body =>
      match validate_data body with
      | .error e => ⟨.uncaught e, db, [.validate]⟩
      | .ok (some msg) => ⟨.resp 400 (errBody msg), db, [.validate]⟩
      | .ok none =>
          match insertedRow body now with
          | none => ⟨.uncaught .typeError, db, [.validate]⟩
          | some rec =>
              if storageFail then
                ⟨.resp 500 internalErrorBody, db,
                  [.validate, .connect, .beginTx, .rollbackTx, .closeConn]⟩
              else if dupKeyErr db rec.test_id then
                ⟨.resp 409 conflictBody, db,
                  [.validate, .connect, .beginTx, .rollbackTx, .closeConn]⟩
              else
                ⟨.resp 200 successBody, db ++ [rec],
                  [.validate, .connect, .beginTx, .insertRow, .commitTx,
                   .closeConn]⟩

/-- main.py `get_tests` (lines 175-225). `clinic_id = none` models an absent
query parameter (FastAPI passes `None`); the guard is `if not clinic_id`,
true for `None` and for the empty string. `storageFail = true` models the
SELECT raising: the `except Exception` branch at lines 209-223 answers 500
with `fetchFailedBody`, and the `finally` (line 225) closes the connection
on every path. -/
def get_tests (db : List TestRec) (clinic_id : Option String)
    (storageFail : Bool) : GetResult :=
  match clinic_id with
  | none => ⟨.resp 400 clinicRequiredBody, []⟩
  | some c =>
      if c = "" then
        ⟨.resp 400 clinicRequiredBody, []⟩
      else if storageFail then
        ⟨.resp 500 fetchFailedBody, [.connect, .closeConn]⟩
      else
        ⟨.rows (db.filter (fun r => r.clinic_id == c)),
          [.connect, .queryRows, .closeConn]⟩

/-- Python `os.getenv(name, default)`: the default is used only when the
variable is unset, not when it is set to the empty string. -/
def os_getenv (env : Option String) (default : String) : String :=
  match env with
  | none => default
  | some v => v

/-- main.py line 12: `DB_PATH = os.getenv("DATABASE_URL", "records.db")`. -/
def DB_PATH (env : Option String) : String := os_getenv env "records.db"

/-- main.py lines 13-14: `if not DB_PATH: raise RuntimeError(...)`. True
exactly when the fatal startup branch is taken. -/
def startupFatal (env : Option String) : Bool := DB_PATH env == ""

/-- The failure condition of main.py line 39 specialized to a mapping body:
the field is absent, not a string, or empty after trimming whitespace. -/
def objFieldBad (entries : List (String × Json)) (f : String) : Bool :=
  match entries.lookup f with
  | none => true
  | some (.str s) => pyStrip s == ""
  | some _ => true

/-- Resource discipline of one handler call: every opened connection is
closed, every begun transaction is committed or rolled back, and when a
connection was opened the last action is closing it. -/
def releasesResources (evs : List Ev) : Prop :=
  evs.count .connect = evs.count .closeConn ∧
  evs.count .beginTx = evs.count .commitTx + evs.count .rollbackTx ∧
  (Ev.connect ∈ evs → evs.getLast? = some .closeConn)

instance (evs : List Ev) : Decidable (releasesResources evs) := by
  unfold releasesResources
  infer_instance

end NeodocsBackend

namespace NeodocsBackend

/-- On a mapping body the per-field check never raises and computes
`objFieldBad`. -/
theorem checkField_obj (entries : List (String × Json)) (f : String) :
    checkField (Json.obj entries) f = .ok (objFieldBad entries f) := by
  unfold checkField pyContains pyIndex objFieldBad
  cases h : entries.lookup f with
  | none => simp [h]
  | some v => cases v <;> simp [h]

/-- On a mapping body the validation loop returns the message of the first
field failing `objFieldBad`, in list order. -/
theorem validateFields_obj (entries : List (String × Json)) (l : List String) :
    validateFields (Json.obj entries) l =
      .ok ((l.find? (objFieldBad entries)).map
        (fun f => "Invalid or missing field: " ++ f)) := by
  induction l with
  | nil => rfl
  | cons f rest ih =>
      rw [validateFields, checkField_obj]
      cases h : objFieldBad entries f <;> simp [List.find?, h, ih]

/-- On a mapping body `validate_data` reports the first bad required field. -/
theorem validate_data_obj (entries : List (String × Json)) :
    validate_data (Json.obj entries) =
      .ok ((requiredFields.find? (objFieldBad entries)).map
        (fun f => "Invalid or missing field: " ++ f)) :=
  validateFields_obj entries requiredFields

/-- When the validation loop succeeds, every listed field passed its check. -/
theorem validateFields_ok_none (data : Json) (l : List String) (f : String)
    (h : validateFields data l = .ok none) (hf : f ∈ l) :
    checkField data f = .ok false := by
  induction l with
  | nil => cases hf
  | cons g rest ih =>
      rw [validateFields] at h
      cases hg : checkField data g with
      | error e => rw [hg] at h; cases h
      | ok b =>
          cases b with
          | true => rw [hg] at h; cases h
          | false =>
              rw [hg] at h
              rcases List.mem_cons.mp hf with rfl | hmem
              · exact hg
              · exact ih h hmem

/-- A field that passes its check is present as a string that is non-empty
after stripping. -/
theorem checkField_ok_false (data : Json) (f : String)
    (h : checkField data f = .ok false) :
    ∃ s, pyIndex data f = .ok (.str s) ∧ (pyStrip s == "") = false := by
  unfold checkField at h
  cases hc : pyContains data f with
  | error e => rw [hc] at h; cases h
  | ok c =>
      rw [hc] at h
      cases c with
      | false => simp at h
      | true =>
          simp only [if_true] at h
          cases hi : pyIndex data f with
          | error e => rw [hi] at h; cases h
          | ok v =>
              rw [hi] at h
              cases v with
              | str s =>
                  refine ⟨s, rfl, ?_⟩
                  simpa using h
              | null => simp at h
              | bool b => simp at h
              | num n => simp at h
              | arr es => simp at h
              | obj es => simp at h

/-- After `validate_data` succeeds, the five submitted values are strings
(so the INSERT row is well defined, byte-identical to the submission, with
the server clock as `created_at`), and the clinic value is non-blank. -/
theorem insertedRow_of_valid (body : Json) (now : String)
    (h : validate_data body = .ok none) :
    ∃ t p c ty r,
      pyIndex body "test_id" = .ok (.str t) ∧
      pyIndex body "patient_id" = .ok (.str p) ∧
      pyIndex body "clinic_id" = .ok (.str c) ∧
      pyIndex body "test_type" = .ok (.str ty) ∧
      pyIndex body "result" = .ok (.str r) ∧
      insertedRow body now = some ⟨t, p, c, ty, r, now⟩ ∧
      (pyStrip c == "") = false := by
  have h1 := validateFields_ok_none body requiredFields "test_id" h
    (by simp [requiredFields])
  have h2 := validateFields_ok_none body requiredFields "patient_id" h
    (by simp [requiredFields])
  have h3 := validateFields_ok_none body requiredFields "clinic_id" h
    (by simp [requiredFields])
  have h4 := validateFields_ok_none body requiredFields "test_type" h
    (by simp [requiredFields])
  have h5 := validateFields_ok_none body requiredFields "result" h
    (by simp [requiredFields])
  obtain ⟨t, ht, -⟩ := checkField_ok_false body "test_id" h1
  obtain ⟨p, hp, -⟩ := checkField_ok_false body "patient_id" h2
  obtain ⟨c, hc, hcs⟩ := checkField_ok_false body "clinic_id" h3
  obtain ⟨ty, hty, -⟩ := checkField_ok_false body "test_type" h4
  obtain ⟨r, hr, -⟩ := checkField_ok_false body "result" h5
  refine ⟨t, p, c, ty, r, ht, hp, hc, hty, hr, ?_, hcs⟩
  unfold insertedRow
  rw [ht, hp, hc, hty, hr]

end NeodocsBackend

namespace NeodocsBackend

/-- A stored database with one persisted record whose test_id is "t1". -/
def dbT1 : List TestRec :=
  [⟨"t1", "p1", "c1", "pcr", "positive", "2024-01-01T00:00:00"⟩]

/-- A create request body whose test_id equals the persisted "t1" but which
omits the other required fields. -/
def bodyDupOnly : Json := Json.obj [("test_id", Json.str "t1")]

/-- C1 counterexample: a create request whose test_id equals the test_id of
an already-persisted record, but whose body fails field validation, returns
HTTP 400 naming patient_id — not the HTTP 409 conflict response the claim
asserts for every such request. -/
theorem create_dup_invalid_body_not_conflict :
    (create_test dbT1 (some bodyDupOnly) "2024-01-02T00:00:00" false).http =
      .resp 400 (errBody "Invalid or missing field: patient_id") ∧
    (create_test dbT1 (some bodyDupOnly) "2024-01-02T00:00:00" false).http ≠
      .resp 409 conflictBody := by
  exact ⟨rfl, by decide⟩

/-- C1 (amended): for every create request that passes JSON deserialization
and field validation and whose test_id equals the test_id of an
already-persisted record, the create operation returns HTTP 409 with body
`{"error":"Conflict: test_id exists"}`, the transaction is rolled back, and
the persisted set of records is returned unchanged — no existing record is
modified and no new row is added. -/
theorem create_duplicate_conflict (db : List TestRec) (body : Json)
    (now t : String)
    (hv : validate_data body = .ok none)
    (ht : pyIndex body "test_id" = .ok (.str t))
    (hdup : dupKeyErr db t = true) :
    create_test db (some body) now false =
      ⟨.resp 409 conflictBody, db,
        [.validate, .connect, .beginTx, .rollbackTx, .closeConn]⟩ := by
  obtain ⟨t', p, c, ty, r, ht', hp, hc, hty, hr, hrow, -⟩ :=
    insertedRow_of_valid body now hv
  rw [ht] at ht'
  simp only [Except.ok.injEq, Json.str.injEq] at ht'
  subst ht'
  simp only [create_test, hv, hrow, hdup, Bool.false_eq_true, if_false,
    if_true]

/-- C1 witness: the amended theorem applied to a fully valid duplicate
submission against the one-record database. -/
theorem create_duplicate_conflict_witness :
    validate_data (Json.obj [("test_id", Json.str "t1"),
      ("patient_id", Json.str "p2"), ("clinic_id", Json.str "c2"),
      ("test_type", Json.str "rtpcr"), ("result", Json.str "negative")]) =
        .ok none ∧
    dupKeyErr dbT1 "t1" = true ∧
    create_test dbT1 (some (Json.obj [("test_id", Json.str "t1"),
      ("patient_id", Json.str "p2"), ("clinic_id", Json.str "c2"),
      ("test_type", Json.str "rtpcr"), ("result", Json.str "negative")]))
      "2024-01-02T00:00:00" false =
      ⟨.resp 409 conflictBody, dbT1,
        [.validate, .connect, .beginTx, .rollbackTx, .closeConn]⟩ :=
  ⟨rfl, rfl,
    create_duplicate_conflict dbT1 _ "2024-01-02T00:00:00" "t1"
      rfl rfl rfl⟩

/-- C2: for every request body that deserializes to a mapping, when some
required field (checked in the fixed order test_id, patient_id, clinic_id,
test_type, result) is absent, not a string, or empty after trimming
whitespace, the create operation returns HTTP 400 with body
`{"error":"Invalid or missing field: <field>"}` naming the first failing
field in that order, the stored records are unchanged, and no storage event
occurs. -/
theorem create_invalid_field_400 (entries : List (String × Json))
    (db : List TestRec) (now f : String) (storageFail : Bool)
    (hf : requiredFields.find? (objFieldBad entries) = some f) :
    create_test db (some (Json.obj entries)) now storageFail =
      ⟨.resp 400 (errBody ("Invalid or missing field: " ++ f)), db,
        [.validate]⟩ := by
  have hv := validate_data_obj entries
  rw [hf] at hv
  simp only [Option.map_some'] at hv
  simp only [create_test, hv]

/-- C2 witness: a body containing only a valid test_id fails first on
patient_id, the second field in the fixed order; and a body whose test_id is
the no-break space U+00A0 — a character Python's `strip()` removes — fails
first on test_id itself, whatever the storage layer would have done. -/
theorem create_invalid_field_400_witness :
    requiredFields.find? (objFieldBad [("test_id", Json.str "t1")]) =
      some "patient_id" ∧
    create_test [] (some (Json.obj [("test_id", Json.str "t1")])) "T" false =
      ⟨.resp 400 (errBody ("Invalid or missing field: " ++ "patient_id")), [],
        [.validate]⟩ ∧
    requiredFields.find? (objFieldBad [("test_id", Json.str "\u00A0"),
      ("patient_id", Json.str "p1"), ("clinic_id", Json.str "c1"),
      ("test_type", Json.str "pcr"), ("result", Json.str "pos")]) =
      some "test_id" ∧
    create_test [] (some (Json.obj [("test_id", Json.str "\u00A0"),
      ("patient_id", Json.str "p1"), ("clinic_id", Json.str "c1"),
      ("test_type", Json.str "pcr"), ("result", Json.str "pos")])) "T" true =
      ⟨.resp 400 (errBody ("Invalid or missing field: " ++ "test_id")), [],
        [.validate]⟩ :=
  ⟨by decide,
    create_invalid_field_400 [("test_id", Json.str "t1")] [] "T"
      "patient_id" false (by decide),
    by decide,
    create_invalid_field_400 [("test_id", Json.str "\u00A0"),
      ("patient_id", Json.str "p1"), ("clinic_id", Json.str "c1"),
      ("test_type", Json.str "pcr"), ("result", Json.str "pos")] [] "T"
      "test_id" true (by decide)⟩

/-- C3: every valid create payload that is successfully persisted responds
200 success, and a subsequent list query for the submitted clinic_id returns
rows among which is exactly the submitted record: the five client-supplied
values byte-identical to the submission (no trimming), with only the
server-assigned created_at added. -/
theorem create_then_list_roundtrip (db : List TestRec) (body : Json)
    (now t p c ty r : String)
    (hv : validate_data body = .ok none)
    (ht : pyIndex body "test_id" = .ok (.str t))
    (hp : pyIndex body "patient_id" = .ok (.str p))
    (hc : pyIndex body "clinic_id" = .ok (.str c))
    (hty : pyIndex body "test_type" = .ok (.str ty))
    (hr : pyIndex body "result" = .ok (.str r))
    (hnew : dupKeyErr db t = false) :
    (create_test db (some body) now false).http = .resp 200 successBody ∧
    (get_tests (create_test db (some body) now false).db (some c) false).http =
      .rows ((create_test db (some body) now false).db.filter
        (fun rec => rec.clinic_id == c)) ∧
    (⟨t, p, c, ty, r, now⟩ : TestRec) ∈
      (create_test db (some body) now false).db.filter
        (fun rec => rec.clinic_id == c) := by
  obtain ⟨t', p', c', ty', r', ht', hp', hc', hty', hr', hrow, hcs⟩ :=
    insertedRow_of_valid body now hv
  rw [ht] at ht'
  rw [hp] at hp'
  rw [hc] at hc'
  rw [hty] at hty'
  rw [hr] at hr'
  simp only [Except.ok.injEq, Json.str.injEq] at ht' hp' hc' hty' hr'
  subst ht'
  subst hp'
  subst hc'
  subst hty'
  subst hr'
  have hcne : c ≠ "" := by
    intro hce
    rw [hce] at hcs
    have : (pyStrip "" == "") = true := by decide
    rw [this] at hcs
    cases hcs
  have hct : create_test db (some body) now false =
      ⟨.resp 200 successBody, db ++ [⟨t, p, c, ty, r, now⟩],
        [.validate, .connect, .beginTx, .insertRow, .commitTx, .closeConn]⟩ := by
    simp only [create_test, hv, hrow, hnew, Bool.false_eq_true, if_false]
  rw [hct]
  refine ⟨rfl, ?_, ?_⟩
  · simp [get_tests, hcne]
  · simp [List.mem_filter]

/-- C3 witness: a concrete valid submission round-trips through create and
list with all five values byte-identical, including surrounding whitespace
in the result value. -/
theorem create_then_list_roundtrip_witness :
    validate_data (Json.obj [("test_id", Json.str "t9"),
      ("patient_id", Json.str "p9"), ("clinic_id", Json.str "c9"),
      ("test_type", Json.str "pcr"), ("result", Json.str " positive ")]) =
        .ok none ∧
    dupKeyErr [] "t9" = false ∧
    ((create_test [] (some (Json.obj [("test_id", Json.str "t9"),
      ("patient_id", Json.str "p9"), ("clinic_id", Json.str "c9"),
      ("test_type", Json.str "pcr"), ("result", Json.str " positive ")]))
      "2024-03-01T10:00:00" false).http = .resp 200 successBody ∧
    (get_tests (create_test [] (some (Json.obj [("test_id", Json.str "t9"),
      ("patient_id", Json.str "p9"), ("clinic_id", Json.str "c9"),
      ("test_type", Json.str "pcr"), ("result", Json.str " positive ")]))
      "2024-03-01T10:00:00" false).db (some "c9") false).http =
      .rows ((create_test [] (some (Json.obj [("test_id", Json.str "t9"),
        ("patient_id", Json.str "p9"), ("clinic_id", Json.str "c9"),
        ("test_type", Json.str "pcr"), ("result", Json.str " positive ")]))
        "2024-03-01T10:00:00" false).db.filter
        (fun rec => rec.clinic_id == "c9")) ∧
    (⟨"t9", "p9", "c9", "pcr", " positive ", "2024-03-01T10:00:00"⟩ : TestRec) ∈
      (create_test [] (some (Json.obj [("test_id", Json.str "t9"),
        ("patient_id", Json.str "p9"), ("clinic_id", Json.str "c9"),
        ("test_type", Json.str "pcr"), ("result", Json.str " positive ")]))
        "2024-03-01T10:00:00" false).db.filter
        (fun rec => rec.clinic_id == "c9")) :=
  ⟨rfl, rfl,
    create_then_list_roundtrip [] _ "2024-03-01T10:00:00"
      "t9" "p9" "c9" "pcr" " positive "
      rfl rfl rfl rfl rfl rfl rfl⟩

end NeodocsBackend

namespace NeodocsBackend

/-- C4: for every non-empty clinic_id parameter, the list operation returns
HTTP 200 with exactly the stored records whose clinic_id equals the
parameter under case-sensitive exact string equality (each row carrying all
six fields of `TestRec`), and when zero records match it returns the empty
array with HTTP 200, not an error. -/
theorem get_tests_exact_match (db : List TestRec) (c : String) (hne : c ≠ "") :
    get_tests db (some c) false =
      ⟨.rows (db.filter (fun r => r.clinic_id == c)),
        [.connect, .queryRows, .closeConn]⟩ ∧
    (get_tests db (some c) false).http.status = some 200 ∧
    (∀ r : TestRec,
      r ∈ db.filter (fun rec => rec.clinic_id == c) ↔
        r ∈ db ∧ r.clinic_id = c) ∧
    ((∀ r ∈ db, r.clinic_id ≠ c) →
      (get_tests db (some c) false).http = .rows []) := by
  have hg : get_tests db (some c) false =
      ⟨.rows (db.filter (fun r => r.clinic_id == c)),
        [.connect, .queryRows, .closeConn]⟩ := by
    simp [get_tests, hne]
  refine ⟨hg, by rw [hg]; rfl, ?_, ?_⟩
  · intro r
    simp [List.mem_filter]
  · intro hnone
    rw [hg]
    have : db.filter (fun r => r.clinic_id == c) = [] := by
      apply List.filter_eq_nil_iff.mpr
      intro r hr
      simpa using hnone r hr
    rw [this]

/-- C4 witness: with one stored record for clinic c1, querying c1 returns
exactly that record and querying the unmatched clinic c2 returns the empty
array. -/
theorem get_tests_exact_match_witness :
    ("c1" : String) ≠ "" ∧
    get_tests dbT1 (some "c1") false =
      ⟨.rows (dbT1.filter (fun r => r.clinic_id == "c1")),
        [.connect, .queryRows, .closeConn]⟩ ∧
    (("c2" : String) ≠ "" ∧
      ((∀ r ∈ dbT1, r.clinic_id ≠ "c2") →
        (get_tests dbT1 (some "c2") false).http = .rows [])) :=
  ⟨by decide, (get_tests_exact_match dbT1 "c1" (by decide)).1,
    by decide, ((get_tests_exact_match dbT1 "c2" (by decide)).2.2.2)⟩

/-- C5 is a code bug: for a request body that deserializes to the JSON
number 5 (a non-mapping), `validate_data` is called at main.py line 82
outside every try block; the Python expression `"test_id" not in 5` raises
`TypeError`, so the handler returns no HTTP response and the exception
propagates uncaught past the handler boundary to the transport layer,
contradicting the spec's propagation policy. The table is unchanged and no
storage event occurs. -/
theorem create_nonmapping_body_uncaught (storageFail : Bool) :
    create_test [] (some (Json.num 5)) "2024-01-01T00:00:00" storageFail =
      ⟨.uncaught .typeError, [], [.validate]⟩ ∧
    (create_test [] (some (Json.num 5)) "2024-01-01T00:00:00"
      storageFail).http.status = none :=
  ⟨rfl, rfl⟩

/-- C6 counterexample: with the storage-location variable set to the empty
string, `os.getenv` returns the empty string (the default applies only when
the variable is unset), so the fatal startup branch `if not DB_PATH: raise`
is taken — it is not unreachable for every environment configuration. -/
theorem startup_fatal_empty_env : startupFatal (some "") = true := by decide

/-- C6 (amended): the fatal startup branch is unreachable when the
storage-location variable is unset (the default "records.db" is non-empty)
or set to any non-empty string; it is reachable exactly when the variable is
set to the empty string. -/
theorem startup_fatal_iff_empty (env : Option String) :
    startupFatal env = true ↔ env = some "" := by
  cases env with
  | none =>
      simp only [startupFatal, DB_PATH, os_getenv]
      decide
  | some v =>
      simp [startupFatal, DB_PATH, os_getenv]

/-- C6 witness: the amended characterization evaluated at a non-empty
setting. -/
theorem startup_fatal_iff_empty_witness :
    (startupFatal (some "postgres.db") = true ↔
      (some "postgres.db" : Option String) = some "") ∧
    startupFatal (some "postgres.db") = false :=
  ⟨startup_fatal_iff_empty (some "postgres.db"), by decide⟩

/-- C7: for every list request whose clinic_id parameter is absent or the
empty string, the list operation returns HTTP 400 with body
`{"error":"clinic_id is required"}` and its event trace is empty — no
connection is opened and no query executed, whatever the stored records
are. -/
theorem get_tests_missing_param_400 (db : List TestRec) (q : Option String)
    (storageFail : Bool) (h : q = none ∨ q = some "") :
    get_tests db q storageFail = ⟨.resp 400 clinicRequiredBody, []⟩ := by
  rcases h with rfl | rfl
  · rfl
  · simp [get_tests]

/-- C7 witness: an absent parameter against a non-empty store. -/
theorem get_tests_missing_param_400_witness :
    ((none : Option String) = none ∨ (none : Option String) = some "") ∧
    get_tests dbT1 none true = ⟨.resp 400 clinicRequiredBody, []⟩ :=
  ⟨Or.inl rfl, get_tests_missing_param_400 dbT1 none true (Or.inl rfl)⟩

/-- C8: for every create request whose body fails JSON deserialization, the
create operation returns HTTP 400 with body `{"error":"Invalid Json"}`, the
stored records are unchanged, and the event trace is empty — neither the
validator nor storage is touched. -/
theorem create_unparseable_body_400 (db : List TestRec) (now : String)
    (storageFail : Bool) :
    create_test db none now storageFail =
      ⟨.resp 400 invalidJsonBody, db, []⟩ := rfl

/-- C9: on both endpoints and on every exit path — successful commit,
uniqueness conflict, any other storage failure (the except-Exception
branches answering 500), validation failure, or the uncaught-exception
path — every opened connection is closed before the handler returns
(closing is the final event), and every begun transaction is committed or
rolled back. -/
theorem handlers_release_resources (db : List TestRec) (rawBody : Option Json)
    (now : String) (createFail : Bool) (q : Option String) (getFail : Bool) :
    releasesResources (create_test db rawBody now createFail).events ∧
    releasesResources (get_tests db q getFail).events := by
  constructor
  · rcases rawBody with - | body
    · show releasesResources []
      decide
    · rcases hv : validate_data body with e | o
      · simp only [create_test, hv]
        decide
      · rcases o with - | msg
        · rcases hrow : insertedRow body now with - | rec
          · simp only [create_test, hv, hrow]
            decide
          · cases createFail
            · cases hd : dupKeyErr db rec.test_id
              · simp only [create_test, hv, hrow, hd, Bool.false_eq_true,
                  if_false]
                decide
              · simp only [create_test, hv, hrow, hd, Bool.false_eq_true,
                  if_false, if_true]
                decide
            · simp only [create_test, hv, hrow, if_true]
              decide
        · simp only [create_test, hv]
          decide
  · rcases q with - | c
    · show releasesResources []
      decide
    · by_cases hc : c = ""
      · simp only [get_tests, if_pos hc]
        decide
      · cases getFail
        · simp only [get_tests, if_neg hc]
          show releasesResources [Ev.connect, Ev.queryRows, Ev.closeConn]
          decide
        · simp only [get_tests, if_neg hc]
          show releasesResources [Ev.connect, Ev.closeConn]
          decide

/-- C10: a clinic_id parameter that is non-empty but blank after trimming is
not rejected by the list guard: the query proceeds and matches the
whitespace string literally against stored clinic_id values — whereas the
create path's per-field check trims whitespace and marks such a clinic_id
value as failing. -/
theorem get_tests_whitespace_literal (db : List TestRec) (s : String)
    (entries : List (String × Json))
    (hne : s ≠ "") (hws : pyStrip s = "")
    (hcl : entries.lookup "clinic_id" = some (Json.str s)) :
    get_tests db (some s) false =
      ⟨.rows (db.filter (fun r => r.clinic_id == s)),
        [.connect, .queryRows, .closeConn]⟩ ∧
    checkField (Json.obj entries) "clinic_id" = .ok true := by
  constructor
  · simp [get_tests, hne]
  · rw [checkField_obj]
    unfold objFieldBad
    rw [hcl]
    show Except.ok (pyStrip s == "") = Except.ok true
    rw [hws]
    rfl

/-- C10 witness: the single-space clinic_id " " and the no-break space
U+00A0 both pass the list guard and are matched literally, while the
create-path check rejects each of them. -/
theorem get_tests_whitespace_literal_witness :
    (" " : String) ≠ "" ∧ pyStrip " " = "" ∧
    get_tests [] (some " ") false =
      ⟨.rows (List.filter (fun r => r.clinic_id == " ") []),
        [.connect, .queryRows, .closeConn]⟩ ∧
    checkField (Json.obj [("clinic_id", Json.str " ")]) "clinic_id" =
      .ok true ∧
    ("\u00A0" : String) ≠ "" ∧ pyStrip "\u00A0" = "" ∧
    get_tests [] (some "\u00A0") false =
      ⟨.rows (List.filter (fun r => r.clinic_id == "\u00A0") []),
        [.connect, .queryRows, .closeConn]⟩ ∧
    checkField (Json.obj [("clinic_id", Json.str "\u00A0")]) "clinic_id" =
      .ok true :=
  ⟨by decide, by decide,
    (get_tests_whitespace_literal [] " " [("clinic_id", Json.str " ")]
      (by decide) (by decide) rfl).1,
    (get_tests_whitespace_literal [] " " [("clinic_id", Json.str " ")]
      (by decide) (by decide) rfl).2,
    by decide, by decide,
    (get_tests_whitespace_literal [] "\u00A0"
      [("clinic_id", Json.str "\u00A0")] (by decide) (by decide) rfl).1,
    (get_tests_whitespace_literal [] "\u00A0"
      [("clinic_id", Json.str "\u00A0")] (by decide) (by decide) rfl).2⟩

end NeodocsBackend
